import Mathlib

/-!
# Verification of the NMEA fusion engine of `GPSFusion.py`

Shallow embedding of the sentence-fusion core of the repository
(class `GPSFusion` in `src/GPSFusion.py`): checksum validator, field
converters, the six sentence decoders, the shared `datos_gps` state and
the dispatcher `procesar_trama`.

Python strings are modelled as `List Char`; Python floats as the exact
rational type `Q` below (none of the checked properties depends on
binary floating-point rounding).  Python `None` and the dictionary's
initial `''` values are both modelled as `none` for the optional
numeric fields, since no checked property distinguishes them.  Code
that can raise (`int(...)`, `float(...)`, out-of-range indexing) is
modelled by `Option`-valued reads; an exception inside a decoder keeps
the assignments already made — exactly as the Python `try`/`except`
blocks do, because Python assignments before the raising statement
persist.
-/

set_option autoImplicit false

namespace GPSFusion

/-! ## Exact rationals

A minimal normalized-fraction type used to model Python float values
exactly.  All operations are plain structural recursion over `Int` and
`Nat`, so every concrete computation in this file can be checked by
`decide`.  Every value is kept normalized (positive denominator,
coprime), so structural equality coincides with equality of the
represented rationals. -/

structure Q where
  num : Int
  den : Nat
deriving DecidableEq, Repr

/-- Build the normalized fraction `n / d` (and `0` for `d = 0`, a case
no computation in this file reaches). -/
def mkQ (n d : Int) : Q :=
  if d = 0 then ⟨0, 1⟩
  else
    let n' : Int := if d < 0 then -n else n
    let dAbs : Nat := d.natAbs
    let g : Nat := n'.natAbs.gcd dAbs
    ⟨Int.tdiv n' (g : Int), dAbs / g⟩

def Q.ofInt (n : Int) : Q := ⟨n, 1⟩

instance (n : Nat) : OfNat Q n := ⟨⟨(n : Int), 1⟩⟩

instance : Add Q := ⟨fun a b => mkQ (a.num * b.den + b.num * a.den) ((a.den : Int) * b.den)⟩

instance : Mul Q := ⟨fun a b => mkQ (a.num * b.num) ((a.den : Int) * b.den)⟩

instance : Div Q := ⟨fun a b => mkQ (a.num * b.den) (b.num * a.den)⟩

instance : Neg Q := ⟨fun a => ⟨-a.num, a.den⟩⟩

instance : LE Q := ⟨fun a b => a.num * (b.den : Int) ≤ b.num * (a.den : Int)⟩

instance : LT Q := ⟨fun a b => a.num * (b.den : Int) < b.num * (a.den : Int)⟩

instance (a b : Q) : Decidable (a ≤ b) :=
  inferInstanceAs (Decidable (a.num * (b.den : Int) ≤ b.num * (a.den : Int)))

instance (a b : Q) : Decidable (a < b) :=
  inferInstanceAs (Decidable (a.num * (b.den : Int) < b.num * (a.den : Int)))

/-! ## Python string primitives -/

/-- Characters treated as whitespace by Python's `str.strip()`. -/
def pyIsSpace (c : Char) : Bool :=
  c = ' ' || c = '\t' || c = '\n' || c = '\r' || c = '\x0b' || c = '\x0c'

/-- Python `s.strip()`: remove leading and trailing whitespace. -/
def pyStrip (s : List Char) : List Char :=
  ((s.dropWhile pyIsSpace).reverse.dropWhile pyIsSpace).reverse

/-- Python `s.upper()` restricted to ASCII (the only case exercised here:
checksum hex digits). -/
def pyUpper (s : List Char) : List Char :=
  s.map Char.toUpper

/-- Python `s.split(sep)` for a one-character separator: all parts, in
order; `n` separators yield `n+1` parts. -/
def pySplit (sep : Char) : List Char → List (List Char)
  | [] => [[]]
  | c :: rest =>
    if c = sep then [] :: pySplit sep rest
    else
      match pySplit sep rest with
      | [] => [[c]]
      | p :: ps => (c :: p) :: ps

/-- Python `s.split(sep, 1)`: split at the first separator only. -/
def pySplit1 (sep : Char) : List Char → List (List Char)
  | [] => [[]]
  | c :: rest =>
    if c = sep then [[], rest]
    else
      match pySplit1 sep rest with
      | [] => [[c]]
      | p :: ps => (c :: p) :: ps

/-- Python `s.replace(old, '', 1)` for a one-character `old`: remove the
first occurrence. -/
def pyReplaceFirst (old : Char) : List Char → List Char
  | [] => []
  | c :: rest => if c = old then rest else c :: pyReplaceFirst old rest

/-- Python `s.isdigit()` restricted to ASCII digits. -/
def pyIsdigit (s : List Char) : Bool :=
  !s.isEmpty && s.all Char.isDigit

/-- Numeric value of a string of ASCII digits. -/
def natOfDigits (s : List Char) : Nat :=
  s.foldl (fun acc c => 10 * acc + (c.toNat - 48)) 0

/-- Python `int(s)`: optional surrounding whitespace and sign, then a
non-empty run of digits; `none` models a raised `ValueError`.
(Underscore separators and non-ASCII digits are not modelled; no input
in this development uses them.) -/
def pyInt (s : List Char) : Option Int :=
  match pyStrip s with
  | '+' :: rest => if pyIsdigit rest then some (natOfDigits rest : Int) else none
  | '-' :: rest => if pyIsdigit rest then some (-(natOfDigits rest : Int)) else none
  | t => if pyIsdigit t then some (natOfDigits t : Int) else none

/-- Parse an unsigned decimal numeral `a`, `a.b`, `a.` or `.b` (at least
one digit overall) into an exact rational. -/
def parseDecimal (t : List Char) : Option Q :=
  match pySplit '.' t with
  | [a] =>
    if !a.isEmpty && a.all Char.isDigit then some (Q.ofInt (natOfDigits a : Int)) else none
  | [a, b] =>
    if (!a.isEmpty || !b.isEmpty) && a.all Char.isDigit && b.all Char.isDigit then
      some (Q.ofInt (natOfDigits a : Int) +
        Q.ofInt (natOfDigits b : Int) / Q.ofInt ((10 : Nat) ^ b.length : Nat))
    else none
  | _ => none

/-- Python `float(s)` on the plain decimal subset (optional surrounding
whitespace and sign, digits with at most one dot); `none` models a
raised `ValueError`.  Exponent forms, `inf`/`nan` and underscores are
not modelled; no token in this protocol uses them. -/
def pyFloat (s : List Char) : Option Q :=
  match pyStrip s with
  | '+' :: rest => parseDecimal rest
  | '-' :: rest => (parseDecimal rest).map (fun x => -x)
  | t => parseDecimal t

/-- Python `round(x, n)` for exact rationals: round half to even at `n`
decimal places.  `f` is the floor of `x·10^n` and `rem/den` its
fractional part. -/
def pyRound (x : Q) (n : Nat) : Q :=
  let scale : Nat := 10 ^ n
  let y := x * Q.ofInt (scale : Int)
  let f : Int := Int.fdiv y.num y.den
  let rem : Int := y.num - f * y.den
  let r : Int :=
    if 2 * rem < (y.den : Int) then f
    else if 2 * rem > (y.den : Int) then f + 1
    else if f % 2 = 0 then f else f + 1
  Q.ofInt r / Q.ofInt (scale : Int)

/-! ## The fusion state (`self.datos_gps` plus `self.tramas_procesadas`) -/

/-- One entry of `datos_gps['satelites_info']`, as appended by
`procesar_gpgsv`. -/
structure SatInfo where
  sat_id : List Char
  elevacion : Nat
  azimut : Nat
  snr : Nat
deriving DecidableEq, Repr

/-- The `self.datos_gps` dictionary.  `satelites_utilizados_acc` models
the key `"satélites_utilizados"` (with accented characters) that
`procesar_gpgga` creates — a distinct key from the pre-initialised
`'satelites_usados'`. -/
structure DatosGps where
  timestamp : List Char := []
  latitud : Option Q := none
  longitud : Option Q := none
  altitud : Option Q := none
  velocidad : Option Q := none
  curso : Option Q := none
  fecha : List Char := []
  hora : List Char := []
  satelites_visibles : Nat := 0
  satelites_usados : Nat := 0
  calidad_fix : List Char := []
  hdop : Option Q := none
  pdop : Option Q := none
  vdop : Option Q := none
  satelites_info : List SatInfo := []
  satelites_utilizados_acc : Option Int := none
deriving DecidableEq, Repr

/-- The decoder-relevant mutable state of a `GPSFusion` object. -/
structure FusionState where
  datos : DatosGps
  tramas_procesadas : Nat
deriving DecidableEq, Repr

/-- `datos_gps` as initialised in `GPSFusion.__init__`. -/
def initialDatos : DatosGps := {}

/-- A freshly constructed `GPSFusion` object's state. -/
def initialState : FusionState := ⟨initialDatos, 0⟩

/-! ## Checksum validator -/

/-- Fold of `calcular_checksum`: XOR the code points of the characters,
stopping at the first `*`. -/
def checksumAux : List Char → Nat → Nat
  | [], acc => acc
  | c :: rest, acc => if c = '*' then acc else checksumAux rest (Nat.xor acc c.toNat)

/-- One uppercase hexadecimal digit. -/
def hexDigit (n : Nat) : Char :=
  if n < 10 then Char.ofNat (48 + n) else Char.ofNat (55 + n)

/-- Hexadecimal digits of `n`, most significant first (empty for `0`). -/
def hexDigitsAux : Nat → Nat → List Char
  | 0, _ => []
  | fuel + 1, n => if n = 0 then [] else hexDigitsAux fuel (n / 16) ++ [hexDigit (n % 16)]

/-- Python `f"{n:02X}"`: uppercase hex, zero-padded to at least two
digits. -/
def hexUpper2 (n : Nat) : List Char :=
  let ds := hexDigitsAux (n + 1) n
  if ds.length = 0 then ['0', '0']
  else if ds.length = 1 then '0' :: ds
  else ds

/-- `calcular_checksum`: XOR of the code points of the characters after
the leading `$` (index 0 is skipped), stopping at `*`, rendered as
zero-padded uppercase hex. -/
def calcular_checksum (sentencia : List Char) : List Char :=
  hexUpper2 (checksumAux (sentencia.drop 1) 0)

/-- `validar_checksum`: fail when no `*` is present or the split at `*`
does not give exactly two parts; otherwise compare the computed
checksum with the received part, stripped and uppercased. -/
def validar_checksum (sentencia : List Char) : Bool :=
  if '*' ∉ sentencia then false
  else
    match pySplit '*' sentencia with
    | [_, recibido] => calcular_checksum sentencia == pyUpper (pyStrip recibido)
    | _ => false

/-! ## Field converter -/

/-- `convertir_a_decimal`: degrees from the first two characters,
minutes from the rest, `degrees + minutes/60` rounded to 6 decimal
places; `none` on the empty string or when `int`/`float` raise.  No
direction sign is applied here. -/
def convertir_a_decimal (coordenada : List Char) : Option Q :=
  if coordenada = [] then none
  else
    match pyInt (coordenada.take 2), pyFloat (coordenada.drop 2) with
    | some grados, some minutos => some (pyRound (Q.ofInt grados + minutos / (60 : Q)) 6)
    | _, _ => none

/-! ## Sentence decoders

Each decoder receives the payload that `procesar_trama` produced by
splitting the stripped line at its first comma — the `$TAG` part is
already removed.  The returned `Bool` is the truthiness of the Python
return value: `procesar_gpvtg`, `procesar_gpgsa` and `procesar_gpgsv`
return `True`/`False`; `procesar_gpgga`, `procesar_gpgll` and
`procesar_gprmc` have no `return` statement and so return `None`
(falsy) on every path, including full success. -/

/-- Speed half of `procesar_gpvtg`: `campos[7]`, guarded by
`replace('.', '', 1).isdigit()`. -/
def vtgSpeed (d : DatosGps) (campos : List (List Char)) : DatosGps × Bool :=
  let t7 := campos.getD 7 []
  if pyIsdigit (pyReplaceFirst '.' t7) then
    match pyFloat t7 with
    | none => (d, false)
    | some v => ({ d with velocidad := some v }, true)
  else (d, true)

/-- `procesar_gpvtg`: split the payload at commas; when at least 8
fields are present, assign course from `campos[1]` and speed from
`campos[7]`, each only if its token passes the numeric guard.  Returns
`True` unless an exception occurs (the `none` parse branches after a
passed guard model the `float()` raise and are unreachable for ASCII
tokens). -/
def procesar_gpvtg (d : DatosGps) (datos : List Char) : DatosGps × Bool :=
  let campos := pySplit ',' datos
  if 8 ≤ campos.length then
    let t1 := campos.getD 1 []
    if pyIsdigit (pyReplaceFirst '.' t1) then
      match pyFloat t1 with
      | none => (d, false)
      | some v => vtgSpeed { d with curso := some v } campos
    else vtgSpeed d campos
  else (d, true)

/-- `procesar_gpgga`.  The source indexes the payload string directly
(`datos[1]`, `datos[2]`, …), so every "field" here is a single
character of the payload; an out-of-range index or a failed `int`/
`float` raises, which the decoder's `except` swallows, keeping the
assignments already made.  The function body has no `return`, so the
result is `None` — modelled as `false` — on every path. -/
def procesar_gpgga (d : DatosGps) (datos : List Char) : DatosGps × Bool :=
  match datos.get? 1 with
  | none => (d, false)
  | some t =>
    let d := { d with timestamp := [t] }
    match datos.get? 2, datos.get? 3, datos.get? 4, datos.get? 5 with
    | some lat_raw, some lat_dir, some lon_raw, some lon_dir =>
      let latitud := convertir_a_decimal [lat_raw]
      let latitud := if lat_dir = 'S' then latitud.map (fun x => -x) else latitud
      let longitud := convertir_a_decimal [lon_raw]
      let longitud := if lon_dir = 'W' then longitud.map (fun x => -x) else longitud
      let d := { d with latitud := latitud, longitud := longitud }
      match datos.get? 6 with
      | none => (d, false)
      | some cf =>
        let d := { d with calidad_fix := [cf] }
        match datos.get? 7 with
        | none => (d, false)
        | some su =>
          match pyInt [su] with
          | none => (d, false)
          | some n =>
            let d := { d with satelites_utilizados_acc := some n }
            match datos.get? 9 with
            | none => (d, false)
            | some alt =>
              match pyFloat [alt] with
              | none => (d, false)
              | some a => ({ d with altitud := some a }, false)
    | _, _, _, _ => (d, false)

/-- VDOP third of `procesar_gpgsa`: `campos[17]`, with a trailing
`*checksum` stripped before parsing. -/
def gsaVdop (d : DatosGps) (campos : List (List Char)) : DatosGps × Bool :=
  let c17 := campos.getD 17 []
  if c17 ≠ [] then
    let vtok := if '*' ∈ c17 then (pySplit '*' c17).getD 0 [] else c17
    match pyFloat vtok with
    | none => (d, false)
    | some v => ({ d with vdop := some v }, true)
  else (d, true)

/-- HDOP part of `procesar_gpgsa`: `campos[16]`. -/
def gsaHdop (d : DatosGps) (campos : List (List Char)) : DatosGps × Bool :=
  let c16 := campos.getD 16 []
  if c16 ≠ [] then
    match pyFloat c16 with
    | none => (d, false)
    | some v => gsaVdop { d with hdop := some v } campos
  else gsaVdop d campos

/-- `procesar_gpgsa`: when at least 18 comma-separated fields are
present, assign PDOP from `campos[15]`, HDOP from `campos[16]` and VDOP
from `campos[17]`, each only when its token is non-empty; a `float()`
raise (malformed non-empty token) aborts the remaining assignments and
returns `False`.  Fewer than 18 fields: nothing assigned, `True`. -/
def procesar_gpgsa (d : DatosGps) (datos : List Char) : DatosGps × Bool :=
  let campos := pySplit ',' datos
  if 18 ≤ campos.length then
    let c15 := campos.getD 15 []
    if c15 ≠ [] then
      match pyFloat c15 with
      | none => (d, false)
      | some v => gsaHdop { d with pdop := some v } campos
    else gsaHdop d campos
  else (d, true)

/-- One satellite slot of `procesar_gpgsv` (`idx = 4 + i*4`): append an
entry when the id token exists and is non-empty; elevation, azimuth and
SNR default to 0 when missing or non-numeric, and the SNR token has a
trailing `*checksum` stripped. -/
def satSlot (campos : List (List Char)) (d : DatosGps) (i : Nat) : DatosGps :=
  let idx := 4 + i * 4
  if idx < campos.length ∧ campos.getD idx [] ≠ [] then
    let sat_id := campos.getD idx []
    let elevacion :=
      if idx + 1 < campos.length ∧ pyIsdigit (campos.getD (idx + 1) []) = true then
        natOfDigits (campos.getD (idx + 1) [])
      else 0
    let azimut :=
      if idx + 2 < campos.length ∧ pyIsdigit (campos.getD (idx + 2) []) = true then
        natOfDigits (campos.getD (idx + 2) [])
      else 0
    let snr_str := if idx + 3 < campos.length then campos.getD (idx + 3) [] else ['0']
    let snr0 := (pySplit '*' snr_str).getD 0 []
    let snr :=
      if snr_str ≠ [] ∧ pyIsdigit snr0 = true then natOfDigits snr0 else 0
    { d with satelites_info := d.satelites_info ++ [⟨sat_id, elevacion, azimut, snr⟩] }
  else d

/-- The entry (zero or one) that `satSlot` appends for slot `i`. -/
def slotEntry (campos : List (List Char)) (i : Nat) : List SatInfo :=
  let idx := 4 + i * 4
  if idx < campos.length ∧ campos.getD idx [] ≠ [] then
    let sat_id := campos.getD idx []
    let elevacion :=
      if idx + 1 < campos.length ∧ pyIsdigit (campos.getD (idx + 1) []) = true then
        natOfDigits (campos.getD (idx + 1) [])
      else 0
    let azimut :=
      if idx + 2 < campos.length ∧ pyIsdigit (campos.getD (idx + 2) []) = true then
        natOfDigits (campos.getD (idx + 2) [])
      else 0
    let snr_str := if idx + 3 < campos.length then campos.getD (idx + 3) [] else ['0']
    let snr0 := (pySplit '*' snr_str).getD 0 []
    let snr :=
      if snr_str ≠ [] ∧ pyIsdigit snr0 = true then natOfDigits snr0 else 0
    [⟨sat_id, elevacion, azimut, snr⟩]
  else []

/-- The message-number value the GSV decoder computes:
`int(campos[2]) if campos[2].isdigit() else 0`.  (After the
dispatcher's tag split, `campos[2]` is the THIRD payload field.) -/
def gsvMsgNum (campos : List (List Char)) : Nat :=
  if pyIsdigit (campos.getD 2 []) then natOfDigits (campos.getD 2 []) else 0

/-- `procesar_gpgsv`: with at least 4 comma-separated payload fields,
read the message number from `campos[2]` and the visible-satellite
count from `campos[3]` (each 0 when not all digits); when the message
number equals 1, set `satelites_visibles` and clear `satelites_info`;
then append up to four satellite slots.  Always returns `True`: every
numeric conversion is guarded, so no exception can occur. -/
def procesar_gpgsv (d : DatosGps) (datos : List Char) : DatosGps × Bool :=
  let campos := pySplit ',' datos
  if 4 ≤ campos.length then
    let msg_num := gsvMsgNum campos
    let sat_visibles := if pyIsdigit (campos.getD 3 []) then natOfDigits (campos.getD 3 []) else 0
    let d :=
      if msg_num = 1 then { d with satelites_visibles := sat_visibles, satelites_info := [] }
      else d
    let d := satSlot campos d 0
    let d := satSlot campos d 1
    let d := satSlot campos d 2
    let d := satSlot campos d 3
    (d, true)
  else (d, true)

/-- `procesar_gpgll`.  Like `procesar_gpgga` it indexes the payload
string by character; all five reads precede every assignment, so a
short payload changes nothing.  No `return` statement: always falsy. -/
def procesar_gpgll (d : DatosGps) (datos : List Char) : DatosGps × Bool :=
  match datos.get? 1, datos.get? 2, datos.get? 3, datos.get? 4, datos.get? 5 with
  | some lat_raw, some lat_dir, some lon_raw, some lon_dir, some ts =>
    let latitud := convertir_a_decimal [lat_raw]
    let latitud := if lat_dir = 'S' then latitud.map (fun x => -x) else latitud
    let longitud := convertir_a_decimal [lon_raw]
    let longitud := if lon_dir = 'W' then longitud.map (fun x => -x) else longitud
    let d := { d with timestamp := [ts] }
    let d := { d with latitud := latitud }
    ({ d with longitud := longitud }, false)
  | _, _, _, _, _ => (d, false)

/-- `procesar_gprmc`.  Indexes the payload string by character; the
timestamp is assigned first, so it persists when a later read or parse
raises.  A one-character slice is always truthy, so the `if
velocidad_nudos:` / `if curso:` guards always pass once the index is in
range.  No `return` statement: always falsy. -/
def procesar_gprmc (d : DatosGps) (datos : List Char) : DatosGps × Bool :=
  match datos.get? 1 with
  | none => (d, false)
  | some ts =>
    let d := { d with timestamp := [ts] }
    match datos.get? 7 with
    | none => (d, false)
    | some vel =>
      match pyFloat [vel] with
      | none => (d, false)
      | some v =>
        let d := { d with velocidad := some (pyRound (v * mkQ 1852 1000) 2) }
        match datos.get? 8 with
        | none => (d, false)
        | some cu =>
          match pyFloat [cu] with
          | none => (d, false)
          | some c => ({ d with curso := some c }, false)

/-! ## Dispatcher -/

/-- Result of one `procesar_trama` call: the new state, the truthiness
of the returned value, and the snapshot (`datos_gps.copy()`) that is
handed to the registered update callback — `none` when no notification
happens. -/
structure StepResult where
  state : FusionState
  ok : Bool
  notificado : Option DatosGps
deriving DecidableEq, Repr

/-- The `if`/`elif` routing chain of `procesar_trama`: route the payload
to the decoder selected by exact tag match; for unrecognized tags
`resultado` keeps its initial `False` and the state is untouched. -/
def decodeByTag (d : DatosGps) (tipo datos : List Char) : DatosGps × Bool :=
  if tipo = ("$GPVTG").toList then procesar_gpvtg d datos
  else if tipo = ("$GPGGA").toList then procesar_gpgga d datos
  else if tipo = ("$GPGSA").toList then procesar_gpgsa d datos
  else if tipo = ("$GPGSV").toList then procesar_gpgsv d datos
  else if tipo = ("$GPGLL").toList then procesar_gpgll d datos
  else if tipo = ("$GPRMC").toList then procesar_gprmc d datos
  else (d, false)

/-- Tag routing and merge stage of `procesar_trama`, applied to the
already stripped and checksum-accepted line: split at the first comma
into tag and payload, route by exact tag match, then on truthy result
increment the counter and emit the snapshot. -/
def despachar (fs : FusionState) (t : List Char) : StepResult :=
  let partes := pySplit1 ',' t
  let tipo := partes.getD 0 []
  let datos := partes.getD 1 []
  let r := decodeByTag fs.datos tipo datos
  if r.2 then ⟨⟨r.1, fs.tramas_procesadas + 1⟩, true, some r.1⟩
  else ⟨⟨r.1, fs.tramas_procesadas⟩, false, none⟩

/-- `procesar_trama`: strip the line; discard empty lines and lines not
starting with `$`; when a `*` is present, discard the line on checksum
mismatch; otherwise route to the decoders. -/
def procesar_trama (fs : FusionState) (trama : List Char) : StepResult :=
  let t := pyStrip trama
  if t = [] then ⟨fs, false, none⟩
  else if t.head? ≠ some '$' then ⟨fs, false, none⟩
  else if '*' ∈ t ∧ validar_checksum t = false then ⟨fs, false, none⟩
  else despachar fs t

/-! ## Concrete sentences used by the claims -/

/-- The GGA line of the spec's end-to-end scenario. -/
def ggaLine : List Char :=
  ("$GPGGA,123519,4807.038,N,01131.000,E,1,08,0.9,545.4,M,46.9,M,,*47").toList

/-- The VTG line of the spec's end-to-end scenario (note the comma
before `*48`). -/
def vtgLine : List Char :=
  ("$GPVTG,054.7,T,034.4,M,005.5,N,010.2,K,*48").toList

/-- The GGA line of the end-to-end scenario without its checksum part
(no `*`, so the dispatcher's permissive mode lets it through). -/
def ggaLineNoCk : List Char :=
  ("$GPGGA,123519,4807.038,N,01131.000,E,1,08,0.9,545.4,M,46.9,M,,").toList

/-- A GSA line (no checksum) whose payload has 18 fields, a malformed
PDOP token `x`, and well-formed HDOP `2.5` and VDOP `1.3`. -/
def gsaBadPdopLine : List Char :=
  ("$GPGSA,0,1,2,3,4,5,6,7,8,9,10,11,12,13,14,x,2.5,1.3").toList

/-- A GSV line (no checksum) whose message-sequence-number field — the
second payload field, `1` — marks it as the first message of a group;
its third payload field (satellites in view) is `11`. -/
def gsvSeq1Line : List Char :=
  ("$GPGSV,3,1,11,03,03,111,00").toList

/-- A state holding a previous GSV group's data: one accumulated
satellite entry and a visible-satellite count of 5. -/
def c8Start : FusionState :=
  ⟨{ initialDatos with satelites_visibles := 5, satelites_info := [⟨("99").toList, 1, 2, 3⟩] }, 0⟩

/-- A state whose `latitud` holds a value, as left by an earlier
successfully converted coordinate. -/
def c4Start : FusionState :=
  ⟨{ initialDatos with latitud := some (mkQ 481173 10000) }, 0⟩

/-- The no-reset obligation of the state invariant, for the fields that
satisfy it: `fecha`, `hora` and `satelites_usados` are never written;
`timestamp` and `calidad_fix` are only ever overwritten with non-empty
(one-character) strings; `velocidad`, `curso`, `altitud` and the three
DOPs are only ever overwritten with present values. -/
def PreservaCampos (d r : DatosGps) : Prop :=
  r.fecha = d.fecha ∧
  r.hora = d.hora ∧
  r.satelites_usados = d.satelites_usados ∧
  (r.timestamp = d.timestamp ∨ ∃ c, r.timestamp = [c]) ∧
  (r.calidad_fix = d.calidad_fix ∨ ∃ c, r.calidad_fix = [c]) ∧
  (r.velocidad = d.velocidad ∨ r.velocidad.isSome) ∧
  (r.curso = d.curso ∨ r.curso.isSome) ∧
  (r.altitud = d.altitud ∨ r.altitud.isSome) ∧
  (r.hdop = d.hdop ∨ r.hdop.isSome) ∧
  (r.pdop = d.pdop ∨ r.pdop.isSome) ∧
  (r.vdop = d.vdop ∨ r.vdop.isSome)

/-- The ownership obligation of the state invariant: a field is only
overwritten when the line's tag routes it to a decoder responsible for
it — `timestamp` by GGA/GLL/RMC; `latitud`/`longitud` by GGA/GLL;
`altitud`, `calidad_fix` and the stray accented satellites key by GGA;
`velocidad`/`curso` by VTG/RMC; the three DOPs by GSA;
`satelites_visibles`/`satelites_info` by GSV; `fecha`, `hora` and
`satelites_usados` by nobody. -/
def SoloResponsables (tipo : List Char) (d r : DatosGps) : Prop :=
  (tipo ≠ ("$GPGGA").toList ∧ tipo ≠ ("$GPGLL").toList ∧ tipo ≠ ("$GPRMC").toList →
    r.timestamp = d.timestamp) ∧
  (tipo ≠ ("$GPGGA").toList ∧ tipo ≠ ("$GPGLL").toList →
    r.latitud = d.latitud ∧ r.longitud = d.longitud) ∧
  (tipo ≠ ("$GPGGA").toList →
    r.altitud = d.altitud ∧ r.calidad_fix = d.calidad_fix ∧
    r.satelites_utilizados_acc = d.satelites_utilizados_acc) ∧
  (tipo ≠ ("$GPVTG").toList ∧ tipo ≠ ("$GPRMC").toList →
    r.velocidad = d.velocidad ∧ r.curso = d.curso) ∧
  (tipo ≠ ("$GPGSA").toList →
    r.hdop = d.hdop ∧ r.pdop = d.pdop ∧ r.vdop = d.vdop) ∧
  (tipo ≠ ("$GPGSV").toList →
    r.satelites_visibles = d.satelites_visibles ∧ r.satelites_info = d.satelites_info) ∧
  r.fecha = d.fecha ∧ r.hora = d.hora ∧ r.satelites_usados = d.satelites_usados

/-- Claim-side converter, following the spec's words for C5: the degree
part is the first two characters — or three for a longitude token —
and the rest is minutes; compared against `convertir_a_decimal`, which
has no longitude mode. -/
def coordinateToDecimalSpec (isLongitude : Bool) (coordenada : List Char) : Option Q :=
  let k : Nat := if isLongitude then 3 else 2
  if coordenada = [] then none
  else
    match pyInt (coordenada.take k), pyFloat (coordenada.drop k) with
    | some grados, some minutos => some (pyRound (Q.ofInt grados + minutos / (60 : Q)) 6)
    | _, _ => none

/-! ## Helper lemmas -/

theorem length_pySplit (sep : Char) (s : List Char) :
    (pySplit sep s).length = s.count sep + 1 := by
  induction s with
  | nil => simp [pySplit]
  | cons c rest ih =>
    by_cases h : c = sep
    · subst h
      simp [pySplit, List.count_cons, ih]
    · rcases hr : pySplit sep rest with _ | ⟨p, ps⟩
      · simp [hr] at ih
      · simp [pySplit, h, hr] at ih ⊢
        simpa [List.count_cons, h] using ih

theorem mem_of_pySplit_pair {s pref reci : List Char}
    (h : pySplit '*' s = [pref, reci]) : '*' ∈ s := by
  have hl := length_pySplit '*' s
  rw [h] at hl
  simp at hl
  have : 0 < s.count '*' := by omega
  exact List.count_pos_iff.mp this

/-- Frame lemma for `procesar_gpvtg`: only `curso` and `velocidad` can
change, and then only to a present value. -/
theorem gpvtg_frame (d : DatosGps) (datos : List Char) :
    (procesar_gpvtg d datos).1.timestamp = d.timestamp ∧
    (procesar_gpvtg d datos).1.latitud = d.latitud ∧
    (procesar_gpvtg d datos).1.longitud = d.longitud ∧
    (procesar_gpvtg d datos).1.altitud = d.altitud ∧
    (procesar_gpvtg d datos).1.calidad_fix = d.calidad_fix ∧
    (procesar_gpvtg d datos).1.fecha = d.fecha ∧
    (procesar_gpvtg d datos).1.hora = d.hora ∧
    (procesar_gpvtg d datos).1.satelites_visibles = d.satelites_visibles ∧
    (procesar_gpvtg d datos).1.satelites_usados = d.satelites_usados ∧
    (procesar_gpvtg d datos).1.hdop = d.hdop ∧
    (procesar_gpvtg d datos).1.pdop = d.pdop ∧
    (procesar_gpvtg d datos).1.vdop = d.vdop ∧
    (procesar_gpvtg d datos).1.satelites_info = d.satelites_info ∧
    (procesar_gpvtg d datos).1.satelites_utilizados_acc = d.satelites_utilizados_acc ∧
    ((procesar_gpvtg d datos).1.curso = d.curso ∨ ((procesar_gpvtg d datos).1.curso).isSome) ∧
    ((procesar_gpvtg d datos).1.velocidad = d.velocidad ∨
      ((procesar_gpvtg d datos).1.velocidad).isSome) := by
  simp only [procesar_gpvtg, vtgSpeed]
  repeat' split
  all_goals simp

/-- Frame lemma for `procesar_gpgga`: `velocidad`, `curso`, the DOPs,
the satellite lists and `satelites_usados` are untouched; `timestamp`
and `calidad_fix` are either untouched or set to a one-character
string; `altitud` is either untouched or set to a present value. -/
theorem gpgga_frame (d : DatosGps) (datos : List Char) :
    (procesar_gpgga d datos).1.velocidad = d.velocidad ∧
    (procesar_gpgga d datos).1.curso = d.curso ∧
    (procesar_gpgga d datos).1.fecha = d.fecha ∧
    (procesar_gpgga d datos).1.hora = d.hora ∧
    (procesar_gpgga d datos).1.satelites_visibles = d.satelites_visibles ∧
    (procesar_gpgga d datos).1.satelites_usados = d.satelites_usados ∧
    (procesar_gpgga d datos).1.hdop = d.hdop ∧
    (procesar_gpgga d datos).1.pdop = d.pdop ∧
    (procesar_gpgga d datos).1.vdop = d.vdop ∧
    (procesar_gpgga d datos).1.satelites_info = d.satelites_info ∧
    ((procesar_gpgga d datos).1.timestamp = d.timestamp ∨
      ∃ c, (procesar_gpgga d datos).1.timestamp = [c]) ∧
    ((procesar_gpgga d datos).1.calidad_fix = d.calidad_fix ∨
      ∃ c, (procesar_gpgga d datos).1.calidad_fix = [c]) ∧
    ((procesar_gpgga d datos).1.altitud = d.altitud ∨
      ((procesar_gpgga d datos).1.altitud).isSome) := by
  simp only [procesar_gpgga]
  repeat' split
  all_goals simp

/-- Frame lemma for `procesar_gpgll`: only `timestamp`, `latitud` and
`longitud` can change, `timestamp` only to a one-character string. -/
theorem gpgll_frame (d : DatosGps) (datos : List Char) :
    (procesar_gpgll d datos).1.altitud = d.altitud ∧
    (procesar_gpgll d datos).1.velocidad = d.velocidad ∧
    (procesar_gpgll d datos).1.curso = d.curso ∧
    (procesar_gpgll d datos).1.fecha = d.fecha ∧
    (procesar_gpgll d datos).1.hora = d.hora ∧
    (procesar_gpgll d datos).1.satelites_visibles = d.satelites_visibles ∧
    (procesar_gpgll d datos).1.satelites_usados = d.satelites_usados ∧
    (procesar_gpgll d datos).1.calidad_fix = d.calidad_fix ∧
    (procesar_gpgll d datos).1.hdop = d.hdop ∧
    (procesar_gpgll d datos).1.pdop = d.pdop ∧
    (procesar_gpgll d datos).1.vdop = d.vdop ∧
    (procesar_gpgll d datos).1.satelites_info = d.satelites_info ∧
    (procesar_gpgll d datos).1.satelites_utilizados_acc = d.satelites_utilizados_acc ∧
    ((procesar_gpgll d datos).1.timestamp = d.timestamp ∨
      ∃ c, (procesar_gpgll d datos).1.timestamp = [c]) := by
  simp only [procesar_gpgll]
  repeat' split
  all_goals simp

/-- Frame lemma for `procesar_gprmc`: only `timestamp`, `velocidad` and
`curso` can change, the latter two only to present values. -/
theorem gprmc_frame (d : DatosGps) (datos : List Char) :
    (procesar_gprmc d datos).1.latitud = d.latitud ∧
    (procesar_gprmc d datos).1.longitud = d.longitud ∧
    (procesar_gprmc d datos).1.altitud = d.altitud ∧
    (procesar_gprmc d datos).1.fecha = d.fecha ∧
    (procesar_gprmc d datos).1.hora = d.hora ∧
    (procesar_gprmc d datos).1.satelites_visibles = d.satelites_visibles ∧
    (procesar_gprmc d datos).1.satelites_usados = d.satelites_usados ∧
    (procesar_gprmc d datos).1.calidad_fix = d.calidad_fix ∧
    (procesar_gprmc d datos).1.hdop = d.hdop ∧
    (procesar_gprmc d datos).1.pdop = d.pdop ∧
    (procesar_gprmc d datos).1.vdop = d.vdop ∧
    (procesar_gprmc d datos).1.satelites_info = d.satelites_info ∧
    (procesar_gprmc d datos).1.satelites_utilizados_acc = d.satelites_utilizados_acc ∧
    ((procesar_gprmc d datos).1.timestamp = d.timestamp ∨
      ∃ c, (procesar_gprmc d datos).1.timestamp = [c]) ∧
    ((procesar_gprmc d datos).1.velocidad = d.velocidad ∨
      ((procesar_gprmc d datos).1.velocidad).isSome) ∧
    ((procesar_gprmc d datos).1.curso = d.curso ∨
      ((procesar_gprmc d datos).1.curso).isSome) := by
  simp only [procesar_gprmc]
  repeat' split
  all_goals simp

/-- Frame lemma for `procesar_gpgsa`: only the DOPs can change, and only
to present values. -/
theorem gpgsa_frame (d : DatosGps) (datos : List Char) :
    (procesar_gpgsa d datos).1.timestamp = d.timestamp ∧
    (procesar_gpgsa d datos).1.latitud = d.latitud ∧
    (procesar_gpgsa d datos).1.longitud = d.longitud ∧
    (procesar_gpgsa d datos).1.altitud = d.altitud ∧
    (procesar_gpgsa d datos).1.velocidad = d.velocidad ∧
    (procesar_gpgsa d datos).1.curso = d.curso ∧
    (procesar_gpgsa d datos).1.fecha = d.fecha ∧
    (procesar_gpgsa d datos).1.hora = d.hora ∧
    (procesar_gpgsa d datos).1.satelites_visibles = d.satelites_visibles ∧
    (procesar_gpgsa d datos).1.satelites_usados = d.satelites_usados ∧
    (procesar_gpgsa d datos).1.calidad_fix = d.calidad_fix ∧
    (procesar_gpgsa d datos).1.satelites_info = d.satelites_info ∧
    (procesar_gpgsa d datos).1.satelites_utilizados_acc = d.satelites_utilizados_acc ∧
    ((procesar_gpgsa d datos).1.hdop = d.hdop ∨ ((procesar_gpgsa d datos).1.hdop).isSome) ∧
    ((procesar_gpgsa d datos).1.pdop = d.pdop ∨ ((procesar_gpgsa d datos).1.pdop).isSome) ∧
    ((procesar_gpgsa d datos).1.vdop = d.vdop ∨ ((procesar_gpgsa d datos).1.vdop).isSome) := by
  simp only [procesar_gpgsa, gsaHdop, gsaVdop]
  repeat' split
  all_goals simp

/-- `satSlot` only appends `slotEntry` to `satelites_info`. -/
theorem satSlot_eq (campos : List (List Char)) (d : DatosGps) (i : Nat) :
    satSlot campos d i = { d with satelites_info := d.satelites_info ++ slotEntry campos i } := by
  simp only [satSlot, slotEntry]
  repeat' split
  all_goals simp

/-- Frame lemma for `procesar_gpgsv`: only `satelites_visibles` and
`satelites_info` can change. -/
theorem gpgsv_frame (d : DatosGps) (datos : List Char) :
    (procesar_gpgsv d datos).1.timestamp = d.timestamp ∧
    (procesar_gpgsv d datos).1.latitud = d.latitud ∧
    (procesar_gpgsv d datos).1.longitud = d.longitud ∧
    (procesar_gpgsv d datos).1.altitud = d.altitud ∧
    (procesar_gpgsv d datos).1.velocidad = d.velocidad ∧
    (procesar_gpgsv d datos).1.curso = d.curso ∧
    (procesar_gpgsv d datos).1.fecha = d.fecha ∧
    (procesar_gpgsv d datos).1.hora = d.hora ∧
    (procesar_gpgsv d datos).1.satelites_usados = d.satelites_usados ∧
    (procesar_gpgsv d datos).1.calidad_fix = d.calidad_fix ∧
    (procesar_gpgsv d datos).1.hdop = d.hdop ∧
    (procesar_gpgsv d datos).1.pdop = d.pdop ∧
    (procesar_gpgsv d datos).1.vdop = d.vdop ∧
    (procesar_gpgsv d datos).1.satelites_utilizados_acc = d.satelites_utilizados_acc := by
  simp only [procesar_gpgsv, satSlot_eq]
  repeat' split
  all_goals simp

theorem Q.le_def (a b : Q) : a ≤ b ↔ a.num * (b.den : Int) ≤ b.num * (a.den : Int) :=
  Iff.rfl

theorem Q.zero_le_iff (v : Q) : (0 : Q) ≤ v ↔ 0 ≤ v.num := by
  have h0 : (0 : Q) = ⟨0, 1⟩ := rfl
  rw [Q.le_def, h0]
  simp

theorem Q.add_def (a b : Q) :
    a + b = mkQ (a.num * b.den + b.num * a.den) ((a.den : Int) * b.den) := rfl

theorem Q.mul_def (a b : Q) : a * b = mkQ (a.num * b.num) ((a.den : Int) * b.den) := rfl

theorem Q.div_def (a b : Q) : a / b = mkQ (a.num * b.den) (b.num * a.den) := rfl

theorem mkQ_num_nonneg {n d : Int} (hn : 0 ≤ n) (hd : 0 ≤ d) : 0 ≤ (mkQ n d).num := by
  unfold mkQ
  split
  · simp
  · have : ¬ d < 0 := by omega
    simp only [this, if_false]
    exact Int.tdiv_nonneg hn (Int.natCast_nonneg _)

theorem Q.add_num_nonneg {a b : Q} (ha : 0 ≤ a.num) (hb : 0 ≤ b.num) : 0 ≤ (a + b).num := by
  rw [Q.add_def]
  refine mkQ_num_nonneg ?_ ?_
  · have h1 : 0 ≤ a.num * (b.den : Int) := mul_nonneg ha (Int.natCast_nonneg _)
    have h2 : 0 ≤ b.num * (a.den : Int) := mul_nonneg hb (Int.natCast_nonneg _)
    omega
  · exact mul_nonneg (Int.natCast_nonneg _) (Int.natCast_nonneg _)

theorem Q.div_num_nonneg {a b : Q} (ha : 0 ≤ a.num) (hb : 0 ≤ b.num) : 0 ≤ (a / b).num := by
  rw [Q.div_def]
  exact mkQ_num_nonneg (mul_nonneg ha (Int.natCast_nonneg _))
    (mul_nonneg hb (Int.natCast_nonneg _))

theorem Q.mul_num_nonneg {a b : Q} (ha : 0 ≤ a.num) (hb : 0 ≤ b.num) : 0 ≤ (a * b).num := by
  rw [Q.mul_def]
  exact mkQ_num_nonneg (mul_nonneg ha hb)
    (mul_nonneg (Int.natCast_nonneg _) (Int.natCast_nonneg _))

theorem pyRound_num_nonneg {x : Q} (hx : 0 ≤ x.num) (n : Nat) : 0 ≤ (pyRound x n).num := by
  simp only [pyRound]
  have hy : 0 ≤ (x * Q.ofInt ((10 ^ n : Nat) : Int)).num :=
    Q.mul_num_nonneg hx (Int.natCast_nonneg _)
  set m := x * Q.ofInt ((10 ^ n : Nat) : Int) with hm
  have hf : 0 ≤ Int.fdiv m.num (m.den : Int) := Int.fdiv_nonneg hy (Int.natCast_nonneg _)
  refine Q.div_num_nonneg ?_ (Int.natCast_nonneg _)
  dsimp only [Q.ofInt]
  split_ifs <;> omega

theorem pyStrip_subset (s : List Char) : pyStrip s ⊆ s := by
  intro c hc
  simp only [pyStrip, List.mem_reverse] at hc
  have h2 : c ∈ (s.dropWhile pyIsSpace).reverse := (List.dropWhile_sublist _).subset hc
  simp only [List.mem_reverse] at h2
  exact (List.dropWhile_sublist _).subset h2

theorem pyInt_nonneg {s : List Char} {n : Int} (hs : '-' ∉ s) (h : pyInt s = some n) :
    0 ≤ n := by
  have hns : '-' ∉ pyStrip s := fun hm => hs (pyStrip_subset s hm)
  unfold pyInt at h
  split at h
  · split at h
    · simp only [Option.some.injEq] at h
      omega
    · exact Option.noConfusion h
  · rename_i heq
    rw [heq] at hns
    simp at hns
  · split at h
    · simp only [Option.some.injEq] at h
      omega
    · exact Option.noConfusion h

theorem parseDecimal_nonneg {t : List Char} {v : Q} (h : parseDecimal t = some v) :
    0 ≤ v.num := by
  unfold parseDecimal at h
  split at h <;> try exact Option.noConfusion h
  · split at h
    · simp only [Option.some.injEq] at h
      subst h
      simp [Q.ofInt]
    · exact Option.noConfusion h
  · split at h
    · simp only [Option.some.injEq] at h
      subst h
      exact Q.add_num_nonneg (by simp [Q.ofInt])
        (Q.div_num_nonneg (by simp [Q.ofInt]) (by simp [Q.ofInt]))
    · exact Option.noConfusion h

theorem pyFloat_nonneg {s : List Char} {v : Q} (hs : '-' ∉ s) (h : pyFloat s = some v) :
    0 ≤ v.num := by
  have hns : '-' ∉ pyStrip s := fun hm => hs (pyStrip_subset s hm)
  unfold pyFloat at h
  split at h
  · exact parseDecimal_nonneg h
  · rename_i heq
    rw [heq] at hns
    simp at hns
  · exact parseDecimal_nonneg h

/-- `gsaVdop` never touches `pdop` or `hdop`. -/
theorem gsaVdop_keeps (d : DatosGps) (campos : List (List Char)) :
    (gsaVdop d campos).1.pdop = d.pdop ∧ (gsaVdop d campos).1.hdop = d.hdop := by
  simp only [gsaVdop]
  repeat' split
  all_goals simp

/-- `vtgSpeed` never touches `curso`. -/
theorem vtgSpeed_keeps (d : DatosGps) (campos : List (List Char)) :
    (vtgSpeed d campos).1.curso = d.curso := by
  simp only [vtgSpeed]
  repeat' split
  all_goals simp

theorem preserva_refl (d : DatosGps) : PreservaCampos d d := by
  simp [PreservaCampos]

theorem gpvtg_preserva (d : DatosGps) (datos : List Char) :
    PreservaCampos d (procesar_gpvtg d datos).1 := by
  simp only [PreservaCampos, procesar_gpvtg, vtgSpeed]
  repeat' split
  all_goals simp

theorem gpgga_preserva (d : DatosGps) (datos : List Char) :
    PreservaCampos d (procesar_gpgga d datos).1 := by
  simp only [PreservaCampos, procesar_gpgga]
  repeat' split
  all_goals simp

theorem gpgsa_preserva (d : DatosGps) (datos : List Char) :
    PreservaCampos d (procesar_gpgsa d datos).1 := by
  simp only [PreservaCampos, procesar_gpgsa, gsaHdop, gsaVdop]
  repeat' split
  all_goals simp

theorem gpgsv_preserva (d : DatosGps) (datos : List Char) :
    PreservaCampos d (procesar_gpgsv d datos).1 := by
  simp only [PreservaCampos, procesar_gpgsv, satSlot_eq]
  repeat' split
  all_goals simp

theorem gpgll_preserva (d : DatosGps) (datos : List Char) :
    PreservaCampos d (procesar_gpgll d datos).1 := by
  simp only [PreservaCampos, procesar_gpgll]
  repeat' split
  all_goals simp

theorem gprmc_preserva (d : DatosGps) (datos : List Char) :
    PreservaCampos d (procesar_gprmc d datos).1 := by
  simp only [PreservaCampos, procesar_gprmc]
  repeat' split
  all_goals simp

theorem gpvtg_info (d : DatosGps) (datos : List Char) :
    (procesar_gpvtg d datos).1.satelites_info = d.satelites_info := by
  simp only [procesar_gpvtg, vtgSpeed]
  repeat' split
  all_goals simp

theorem gpgga_info (d : DatosGps) (datos : List Char) :
    (procesar_gpgga d datos).1.satelites_info = d.satelites_info := by
  simp only [procesar_gpgga]
  repeat' split
  all_goals simp

theorem gpgsa_info (d : DatosGps) (datos : List Char) :
    (procesar_gpgsa d datos).1.satelites_info = d.satelites_info := by
  simp only [procesar_gpgsa, gsaHdop, gsaVdop]
  repeat' split
  all_goals simp

theorem gpgll_info (d : DatosGps) (datos : List Char) :
    (procesar_gpgll d datos).1.satelites_info = d.satelites_info := by
  simp only [procesar_gpgll]
  repeat' split
  all_goals simp

theorem gprmc_info (d : DatosGps) (datos : List Char) :
    (procesar_gprmc d datos).1.satelites_info = d.satelites_info := by
  simp only [procesar_gprmc]
  repeat' split
  all_goals simp

/-- A list whose elements are all non-whitespace is unchanged by the
head-side `dropWhile`. -/
theorem dropWhile_id {p : Char → Bool} {l : List Char} (h : ∀ c ∈ l, p c = false) :
    l.dropWhile p = l := by
  cases l with
  | nil => rfl
  | cons a t => simp [List.dropWhile_cons, h a (List.mem_cons_self a t)]

/-- `strip()` is the identity on whitespace-free strings. -/
theorem pyStrip_id {t : List Char} (h : ∀ c ∈ t, pyIsSpace c = false) : pyStrip t = t := by
  unfold pyStrip
  rw [dropWhile_id h, dropWhile_id (fun c hc => h c (by simpa using hc)),
    List.reverse_reverse]

theorem isDigit_not_space {c : Char} (h : c.isDigit = true) : pyIsSpace c = false := by
  cases hsp : pyIsSpace c
  · rfl
  · exfalso
    simp only [pyIsSpace, Bool.or_eq_true, decide_eq_true_eq] at hsp
    rcases hsp with ((((h1 | h1) | h1) | h1) | h1) | h1 <;> subst h1 <;> simp at h

/-- Every character of a string is either still present after
`replace(old, '', 1)` or is the removed character. -/
theorem mem_pyReplaceFirst {old c : Char} :
    ∀ {t : List Char}, c ∈ t → c ∈ pyReplaceFirst old t ∨ c = old := by
  intro t
  induction t with
  | nil => intro h; simp at h
  | cons x rest ih =>
    intro h
    simp only [pyReplaceFirst]
    by_cases hx : x = old
    · rw [if_pos hx]
      rcases List.mem_cons.mp h with h1 | h1
      · right; rw [h1, hx]
      · left; exact h1
    · rw [if_neg hx]
      rcases List.mem_cons.mp h with h1 | h1
      · left; exact List.mem_cons.mpr (Or.inl h1)
      · rcases ih h1 with h2 | h2
        · left; exact List.mem_cons_of_mem x h2
        · right; exact h2

/-- How `replace(sep, '', 1)` and `split(sep)` relate: either the string
has no separator (both are trivial) or it decomposes at the FIRST
separator. -/
theorem replaceFirst_decomp (sep : Char) : ∀ t : List Char,
    (sep ∉ t ∧ pyReplaceFirst sep t = t ∧ pySplit sep t = [t]) ∨
    (∃ u w, t = u ++ sep :: w ∧ sep ∉ u ∧ pyReplaceFirst sep t = u ++ w ∧
      pySplit sep t = u :: pySplit sep w) := by
  intro t
  induction t with
  | nil => left; exact ⟨by simp, rfl, rfl⟩
  | cons c rest ih =>
    by_cases hc : c = sep
    · right
      refine ⟨[], rest, by simp [hc], by simp, ?_, ?_⟩
      · simp [pyReplaceFirst, hc]
      · simp [pySplit, hc]
    · rcases ih with ⟨hnm, hr, hs⟩ | ⟨u, w, ht, hnu, hr, hs⟩
      · left
        refine ⟨?_, ?_, ?_⟩
        · intro hmem
          rcases List.mem_cons.mp hmem with h1 | h1
          · exact hc h1.symm
          · exact hnm h1
        · simp [pyReplaceFirst, hc, hr]
        · simp [pySplit, hc, hs]
      · right
        refine ⟨c :: u, w, by simp [ht], ?_, ?_, ?_⟩
        · intro hmem
          rcases List.mem_cons.mp hmem with h1 | h1
          · exact hc h1.symm
          · exact hnu h1
        · simp [pyReplaceFirst, hc, hr]
        · simp [pySplit, hc, hs]

/-- If `replace('.', '', 1).isdigit()` holds, `parseDecimal` succeeds:
the token is digits with at most one dot and at least one digit. -/
theorem parseDecimal_of_guard {t : List Char}
    (h : pyIsdigit (pyReplaceFirst '.' t) = true) : ∃ v, parseDecimal t = some v := by
  rcases replaceFirst_decomp '.' t with ⟨hnm, hr, hs⟩ | ⟨u, w, ht, hnu, hr, hs⟩
  · rw [hr] at h
    refine ⟨Q.ofInt (natOfDigits t : Int), ?_⟩
    unfold parseDecimal
    rw [hs]
    simp only [pyIsdigit, Bool.and_eq_true] at h
    simp [h.1, h.2]
  · rw [hr] at h
    simp only [pyIsdigit, Bool.and_eq_true, Bool.not_eq_true'] at h
    obtain ⟨hne, hall⟩ := h
    rw [List.all_append, Bool.and_eq_true] at hall
    obtain ⟨hu, hw⟩ := hall
    have hwnm : '.' ∉ w := by
      intro hmem
      have hd : ('.').isDigit = true := List.all_eq_true.mp hw '.' hmem
      exact absurd hd (by decide)
    have hsw : pySplit '.' w = [w] := by
      rcases replaceFirst_decomp '.' w with ⟨_, _, hs2⟩ | ⟨u2, w2, ht2, _, _, _⟩
      · exact hs2
      · exact absurd (by rw [ht2]; simp : '.' ∈ w) hwnm
    refine ⟨Q.ofInt (natOfDigits u : Int) +
      Q.ofInt (natOfDigits w : Int) / Q.ofInt (((10 : Nat) ^ w.length : Nat) : Int), ?_⟩
    unfold parseDecimal
    rw [hs, hsw]
    have hor : (!u.isEmpty || !w.isEmpty) = true := by
      rcases u with _ | ⟨a, u'⟩
      · rcases w with _ | ⟨b, w'⟩
        · simp at hne
        · simp
      · simp
    simp [hor, hu, hw]

/-- If `replace('.', '', 1).isdigit()` holds, `float()` succeeds — the
token has no surrounding whitespace and no sign, so `pyFloat` reduces
to `parseDecimal`. -/
theorem pyFloat_of_guard {t : List Char}
    (h : pyIsdigit (pyReplaceFirst '.' t) = true) : ∃ v, pyFloat t = some v := by
  obtain ⟨v, hv⟩ := parseDecimal_of_guard h
  have hdig : ∀ c ∈ pyReplaceFirst '.' t, c.isDigit = true := by
    simp only [pyIsdigit, Bool.and_eq_true] at h
    exact fun c hc => List.all_eq_true.mp h.2 c hc
  have hchar : ∀ c ∈ t, c.isDigit = true ∨ c = '.' := by
    intro c hc
    rcases mem_pyReplaceFirst hc with h1 | h1
    · exact Or.inl (hdig c h1)
    · exact Or.inr h1
  have hns : ∀ c ∈ t, pyIsSpace c = false := by
    intro c hc
    rcases hchar c hc with h1 | h1
    · exact isDigit_not_space h1
    · rw [h1]; rfl
  refine ⟨v, ?_⟩
  unfold pyFloat
  rw [pyStrip_id hns]
  split
  · exfalso
    rename_i rest
    rcases hchar '+' (List.mem_cons_self '+' rest) with h1 | h1
    · exact absurd h1 (by decide)
    · exact absurd h1 (by decide)
  · exfalso
    rename_i rest
    rcases hchar '-' (List.mem_cons_self '-' rest) with h1 | h1
    · exact absurd h1 (by decide)
    · exact absurd h1 (by decide)
  · exact hv

/-- `vtgSpeed` never reports failure: its parse is guarded. -/
theorem vtgSpeed_ok (d : DatosGps) (campos : List (List Char)) :
    (vtgSpeed d campos).2 = true := by
  simp only [vtgSpeed]
  split
  · rename_i hg
    obtain ⟨v, hv⟩ := pyFloat_of_guard hg
    rw [hv]
  · rfl

/-- `procesar_gpvtg` never reports failure: both conversions are
guarded by `replace('.', '', 1).isdigit()`. -/
theorem gpvtg_ok (d : DatosGps) (datos : List Char) : (procesar_gpvtg d datos).2 = true := by
  simp only [procesar_gpvtg]
  split
  · split
    · rename_i hg
      obtain ⟨v, hv⟩ := pyFloat_of_guard hg
      rw [hv]
      exact vtgSpeed_ok _ _
    · exact vtgSpeed_ok _ _
  · rfl

/-- `procesar_gpgsv` never reports failure: every conversion is
guarded. -/
theorem gpgsv_ok (d : DatosGps) (datos : List Char) : (procesar_gpgsv d datos).2 = true := by
  simp only [procesar_gpgsv]
  split <;> rfl

/-- Unless the GSV decoder's message-number read equals 1, the
satellite list is only appended to, never cleared. -/
theorem gpgsv_no_clear (d : DatosGps) (datos : List Char)
    (h : gsvMsgNum (pySplit ',' datos) ≠ 1) :
    ∃ tail, (procesar_gpgsv d datos).1.satelites_info = d.satelites_info ++ tail := by
  simp only [procesar_gpgsv, satSlot_eq, if_neg h]
  split
  · refine ⟨slotEntry (pySplit ',' datos) 0 ++ (slotEntry (pySplit ',' datos) 1 ++
      (slotEntry (pySplit ',' datos) 2 ++ slotEntry (pySplit ',' datos) 3)), ?_⟩
    simp [List.append_assoc]
  · exact ⟨[], by simp⟩

theorem solo_refl (tipo : List Char) (d : DatosGps) : SoloResponsables tipo d d := by
  simp [SoloResponsables]

/-- Routing-level frame: every decoder satisfies the no-reset
obligation and the ownership obligation; only the GSV route can modify
`satelites_info`, and even a GSV-routed line only appends to it unless
its message-number read equals 1. -/
theorem decodeByTag_frame (d : DatosGps) (tipo datos : List Char) :
    PreservaCampos d (decodeByTag d tipo datos).1 ∧
    SoloResponsables tipo d (decodeByTag d tipo datos).1 ∧
    (tipo ≠ ("$GPGSV").toList →
      (decodeByTag d tipo datos).1.satelites_info = d.satelites_info) ∧
    (gsvMsgNum (pySplit ',' datos) ≠ 1 →
      ∃ tail, (decodeByTag d tipo datos).1.satelites_info = d.satelites_info ++ tail) := by
  unfold decodeByTag
  split_ifs with h1 h2 h3 h4 h5 h6
  · obtain ⟨ht, hla, hlo, hal, hcf, hfe, hho, hsv, hsu, hh, hp, hv, hsi, hac, -, -⟩ :=
      gpvtg_frame d datos
    exact ⟨gpvtg_preserva d datos,
      ⟨fun _ => ht, fun _ => ⟨hla, hlo⟩, fun _ => ⟨hal, hcf, hac⟩,
        fun hc => absurd h1 hc.1, fun _ => ⟨hh, hp, hv⟩, fun _ => ⟨hsv, hsi⟩, hfe, hho, hsu⟩,
      fun _ => hsi, fun _ => ⟨[], by simp [hsi]⟩⟩
  · obtain ⟨hve, hcu, hfe, hho, hsv, hsu, hh, hp, hv, hsi, -, -, -⟩ := gpgga_frame d datos
    exact ⟨gpgga_preserva d datos,
      ⟨fun hc => absurd h2 hc.1, fun hc => absurd h2 hc.1, fun hc => absurd h2 hc,
        fun _ => ⟨hve, hcu⟩, fun _ => ⟨hh, hp, hv⟩, fun _ => ⟨hsv, hsi⟩, hfe, hho, hsu⟩,
      fun _ => hsi, fun _ => ⟨[], by simp [hsi]⟩⟩
  · obtain ⟨ht, hla, hlo, hal, hve, hcu, hfe, hho, hsv, hsu, hcf, hsi, hac, -, -, -⟩ :=
      gpgsa_frame d datos
    exact ⟨gpgsa_preserva d datos,
      ⟨fun _ => ht, fun _ => ⟨hla, hlo⟩, fun _ => ⟨hal, hcf, hac⟩,
        fun _ => ⟨hve, hcu⟩, fun hc => absurd h3 hc, fun _ => ⟨hsv, hsi⟩, hfe, hho, hsu⟩,
      fun _ => hsi, fun _ => ⟨[], by simp [hsi]⟩⟩
  · obtain ⟨ht, hla, hlo, hal, hve, hcu, hfe, hho, hsu, hcf, hh, hp, hv, hac⟩ :=
      gpgsv_frame d datos
    exact ⟨gpgsv_preserva d datos,
      ⟨fun _ => ht, fun _ => ⟨hla, hlo⟩, fun _ => ⟨hal, hcf, hac⟩,
        fun _ => ⟨hve, hcu⟩, fun _ => ⟨hh, hp, hv⟩, fun hc => absurd h4 hc, hfe, hho, hsu⟩,
      fun hne => absurd h4 hne, fun hm => gpgsv_no_clear d datos hm⟩
  · obtain ⟨hal, hve, hcu, hfe, hho, hsv, hsu, hcf, hh, hp, hv, hsi, hac, -⟩ :=
      gpgll_frame d datos
    exact ⟨gpgll_preserva d datos,
      ⟨fun hc => absurd h5 hc.2.1, fun hc => absurd h5 hc.2, fun _ => ⟨hal, hcf, hac⟩,
        fun _ => ⟨hve, hcu⟩, fun _ => ⟨hh, hp, hv⟩, fun _ => ⟨hsv, hsi⟩, hfe, hho, hsu⟩,
      fun _ => hsi, fun _ => ⟨[], by simp [hsi]⟩⟩
  · obtain ⟨hla, hlo, hal, hfe, hho, hsv, hsu, hcf, hh, hp, hv, hsi, hac, -, -, -⟩ :=
      gprmc_frame d datos
    exact ⟨gprmc_preserva d datos,
      ⟨fun hc => absurd h6 hc.2.2, fun _ => ⟨hla, hlo⟩, fun _ => ⟨hal, hcf, hac⟩,
        fun hc => absurd h6 hc.2, fun _ => ⟨hh, hp, hv⟩, fun _ => ⟨hsv, hsi⟩, hfe, hho, hsu⟩,
      fun _ => hsi, fun _ => ⟨[], by simp [hsi]⟩⟩
  · exact ⟨preserva_refl d, solo_refl tipo d, fun _ => rfl, fun _ => ⟨[], by simp⟩⟩

/-- The dispatcher's final state carries exactly the routed decoder's
dictionary. -/
theorem despachar_datos (fs : FusionState) (t : List Char) :
    (despachar fs t).state.datos =
      (decodeByTag fs.datos ((pySplit1 ',' t).getD 0 []) ((pySplit1 ',' t).getD 1 [])).1 := by
  simp only [despachar]
  split <;> rfl

/-! ## Claim theorems -/

/-- C1 (counterexample).  The spec's end-to-end scenario fails on the
code: after feeding the GGA line and then the VTG line,
`sentencesProcessed` is 0, not 2 — the GGA decoder returns `None`
(never counted) and the VTG line is rejected because its checksum `48`
does not match the XOR `64` of its payload (the sentence carries an
extra comma before `*`). -/
theorem c1_counterexample :
    (procesar_trama (procesar_trama initialState ggaLine).state vtgLine).state.tramas_procesadas
      ≠ 2 := by decide

/-- C1 (amended).  Feeding the two scenario lines in order yields:
the GGA decoder indexes the payload string by character, so
`timestamp = "2"`, `latitud = longitud = None` (one-character
coordinate tokens fail conversion), `fixQuality = ","`,
`altitud = 0.0`, and the stray accented key gets `int('4') = 4`; the
decoder returns `None`, so the sentence is not counted and no
notification fires.  The VTG line is rejected at checksum validation
(computed `64` ≠ received `48`).  The final snapshot therefore has
`speed` and `course` unset and `sentencesProcessed = 0`. -/
theorem c1_end_to_end :
    (procesar_trama (procesar_trama initialState ggaLine).state vtgLine) =
      ⟨⟨{ initialDatos with
            timestamp := ['2'], calidad_fix := [','], altitud := some 0,
            satelites_utilizados_acc := some 4 }, 0⟩, false, none⟩ ∧
    validar_checksum (pyStrip vtgLine) = false ∧
    calcular_checksum vtgLine = ("64").toList := by decide

/-- C2 (code bug).  A well-formed GPGGA sentence passes checksum
validation and its decoder body runs to completion and merges fields
(the final snapshot differs from the initial one and `altitud` was
assigned), yet `procesar_gpgga` has no `return` statement, so the
dispatcher sees `None`, does not increment `sentencesProcessed` and
does not notify — contradicting the claim that every successfully
decoded GPGGA sentence increments the counter and triggers the
notification.  (`procesar_gpgll` and `procesar_gprmc` share the same
missing-return defect.) -/
theorem c2_gga_missing_return :
    validar_checksum (pyStrip ggaLine) = true ∧
    (procesar_trama initialState ggaLine).state.datos.altitud = some 0 ∧
    (procesar_trama initialState ggaLine).state.datos ≠ initialDatos ∧
    (procesar_trama initialState ggaLine).ok = false ∧
    (procesar_trama initialState ggaLine).state.tramas_procesadas = 0 ∧
    (procesar_trama initialState ggaLine).notificado = none := by decide

/-- C3 (code bug).  Processing the scenario GPGGA sentence never
updates `'satelites_usados'`: the decoder writes the distinct accented
key `"satélites_utilizados"` instead (and parses the single character
`datos[7] = '4'`, not the satellites-used token `08`), while the GSA
decoder only assigns the three DOPs and never touches the
satellites-used field at all. -/
theorem c3_satellites_used_key :
    (procesar_trama initialState ggaLine).state.datos.satelites_usados = 0 ∧
    (procesar_trama initialState ggaLine).state.datos.satelites_utilizados_acc = some 4 ∧
    (∀ (d : DatosGps) (datos : List Char),
      (procesar_gpgsa d datos).1.satelites_usados = d.satelites_usados ∧
      (procesar_gpgsa d datos).1.satelites_utilizados_acc = d.satelites_utilizados_acc) := by
  refine ⟨by decide, by decide, ?_⟩
  intro d datos
  obtain ⟨-, -, -, -, -, -, -, -, -, h10, -, -, h13, -, -, -⟩ := gpgsa_frame d datos
  exact ⟨h10, h13⟩

/-- C4 (counterexample).  A non-empty field other than
`satelites_info` is reset to an empty value by a later sentence: from a
state whose `latitud` holds a value, processing a GPGGA sentence
overwrites `latitud` with `None` (its one-character coordinate token
fails conversion), refuting the claimed invariant. -/
theorem c4_counterexample :
    c4Start.datos.latitud = some (mkQ 481173 10000) ∧
    (procesar_trama c4Start ggaLine).state.datos.latitud = none := by decide

/-- C4 (amended).  For every state and every input line: (no-reset)
`fecha`, `hora` and `satelites_usados` are never modified; `timestamp`
and `calidad_fix` are only ever overwritten with non-empty strings;
`velocidad`, `curso`, `altitud`, `hdop`, `pdop` and `vdop` are only
ever overwritten with present values; (ownership) each field is only
overwritten when the line's tag routes to the decoder responsible for
it, per `SoloResponsables`; (the single list exception)
`satelites_info` is modified only by lines routed to the GSV decoder,
and even then it is only appended to — never cleared — unless the
decoder's message-number read (the third payload field, `campos[2]`)
equals 1.  (`latitud` and `longitud` are excluded from the no-reset
rule: GGA and GLL overwrite them with the raw conversion result, which
is `None` whenever the coordinate token fails to convert;
`satelites_visibles` is excluded: a GSV clear can set it to 0.) -/
theorem c4_invariant_amended (st : FusionState) (trama : List Char) :
    PreservaCampos st.datos (procesar_trama st trama).state.datos ∧
    SoloResponsables ((pySplit1 ',' (pyStrip trama)).getD 0 []) st.datos
      (procesar_trama st trama).state.datos ∧
    ((pySplit1 ',' (pyStrip trama)).getD 0 [] ≠ ("$GPGSV").toList →
      (procesar_trama st trama).state.datos.satelites_info = st.datos.satelites_info) ∧
    (gsvMsgNum (pySplit ',' ((pySplit1 ',' (pyStrip trama)).getD 1 [])) ≠ 1 →
      ∃ tail, (procesar_trama st trama).state.datos.satelites_info =
        st.datos.satelites_info ++ tail) := by
  simp only [procesar_trama]
  split
  · exact ⟨preserva_refl st.datos, solo_refl _ st.datos, fun _ => rfl, fun _ => ⟨[], by simp⟩⟩
  · split
    · exact ⟨preserva_refl st.datos, solo_refl _ st.datos, fun _ => rfl,
        fun _ => ⟨[], by simp⟩⟩
    · split
      · exact ⟨preserva_refl st.datos, solo_refl _ st.datos, fun _ => rfl,
          fun _ => ⟨[], by simp⟩⟩
      · rw [despachar_datos]
        exact decodeByTag_frame st.datos _ _

/-- C4 (witness): the no-reset and ownership parts of the amended
invariant instantiated at the initial state and the scenario GGA
line. -/
theorem c4_witness :
    PreservaCampos initialState.datos
      (procesar_trama initialState ggaLine).state.datos ∧
    SoloResponsables ((pySplit1 ',' (pyStrip ggaLine)).getD 0 []) initialState.datos
      (procesar_trama initialState ggaLine).state.datos :=
  ⟨(c4_invariant_amended initialState ggaLine).1,
    (c4_invariant_amended initialState ggaLine).2.1⟩

/-- C5 (counterexample).  `convertir_a_decimal` has no longitude mode:
on the longitude token `01131.000` it takes two degree characters and
returns `3.183333`, while the claimed three-character longitude split
(`coordinateToDecimalSpec true`) yields `11.516667`. -/
theorem c5_counterexample :
    convertir_a_decimal (("01131.000").toList) = some (mkQ 3183333 1000000) ∧
    coordinateToDecimalSpec true (("01131.000").toList) = some (mkQ 11516667 1000000) ∧
    convertir_a_decimal (("01131.000").toList) ≠
      coordinateToDecimalSpec true (("01131.000").toList) := by decide

/-- C5 (amended).  `convertir_a_decimal` always splits after the first
TWO characters — also for longitude tokens: degrees from the first two
characters, minutes from the rest, `degrees + minutes/60` rounded to 6
decimal places; `none` (no exception) on the empty token or when
either part fails to parse; no sign is applied (a sign-free token
yields a non-negative result, and the caller negates for S/W).  In
particular `convertir_a_decimal "4807.038" = 48.1173`. -/
theorem c5_convertir_a_decimal :
    convertir_a_decimal [] = none ∧
    convertir_a_decimal (("4807.038").toList) = some (mkQ 481173 10000) ∧
    (∀ (s : List Char) (g : Int) (m : Q), s ≠ [] →
      pyInt (s.take 2) = some g → pyFloat (s.drop 2) = some m →
      convertir_a_decimal s = some (pyRound (Q.ofInt g + m / (60 : Q)) 6)) ∧
    (∀ s : List Char, pyInt (s.take 2) = none ∨ pyFloat (s.drop 2) = none →
      convertir_a_decimal s = none) ∧
    (∀ (s : List Char) (v : Q), '-' ∉ s → convertir_a_decimal s = some v →
      (0 : Q) ≤ v) := by
  refine ⟨by decide, by decide, ?_, ?_, ?_⟩
  · intro s g m hne hg hm
    simp [convertir_a_decimal, hne, hg, hm]
  · intro s h
    unfold convertir_a_decimal
    split
    · rfl
    · rcases h with h | h <;>
        cases hg : pyInt (s.take 2) <;> cases hm : pyFloat (s.drop 2) <;>
        simp_all
  · intro s v hneg h
    unfold convertir_a_decimal at h
    split at h
    · exact Option.noConfusion h
    · split at h
      · rename_i g m hg hm
        simp only [Option.some.injEq] at h
        subst h
        have hgn : 0 ≤ g := pyInt_nonneg (fun hc => hneg (List.take_subset _ _ hc)) hg
        have hmn : 0 ≤ m.num := pyFloat_nonneg (fun hc => hneg (List.drop_subset _ _ hc)) hm
        have hnum : 0 ≤ (pyRound (Q.ofInt g + m / (60 : Q)) 6).num := by
          refine pyRound_num_nonneg (Q.add_num_nonneg ?_ (Q.div_num_nonneg hmn (by decide))) 6
          simpa [Q.ofInt] using hgn
        rw [Q.zero_le_iff]
        exact hnum
      · exact Option.noConfusion h

/-- C5 (witness): the success formula instantiated at the spec's
example token `4807.038` (`48 + 7.038/60`, rounded to 6 places). -/
theorem c5_witness :
    convertir_a_decimal (("4807.038").toList) =
      some (pyRound (Q.ofInt 48 + (mkQ 7038 1000) / (60 : Q)) 6) :=
  c5_convertir_a_decimal.2.2.1 (("4807.038").toList) 48 (mkQ 7038 1000)
    (by decide) (by decide) (by decide)

/-- C6 (counterexample).  In the GSA decoder a malformed (non-empty,
unparseable) PDOP token is not skipped independently: `float('x')`
raises, the decoder reports failure and neither HDOP (`2.5`, itself
well-formed) nor VDOP (`1.3`) is assigned — refuting both "only that
field is skipped, never failure of the whole sentence" and "each DOP
assigned independently" for malformed tokens. -/
theorem c6_counterexample :
    (procesar_trama initialState gsaBadPdopLine).state.datos.hdop = none ∧
    (procesar_trama initialState gsaBadPdopLine).state.datos.pdop = none ∧
    (procesar_trama initialState gsaBadPdopLine).state.datos.vdop = none ∧
    (procesar_trama initialState gsaBadPdopLine).ok = false ∧
    pyFloat ((pySplit ','
      (("0,1,2,3,4,5,6,7,8,9,10,11,12,13,14,x,2.5,1.3").toList)).getD 16 [])
      = some (mkQ 5 2) := by decide

/-- C6 (amended).  Tokens are skipped independently only where the code
guards them: an ABSENT (empty) GSA DOP token is skipped and the later
DOPs are still assigned, and a VTG token failing the numeric guard is
skipped without failing the sentence — indeed the VTG and GSV decoders
never report failure, because every numeric conversion they perform is
guarded; but a MALFORMED (non-empty, unparseable) numeral token raises,
aborting the rest of the sentence's assignments and reporting failure
(GSA shown; the exception keeps the assignments already made, as shown
for RMC, whose timestamp assignment survives a failed speed parse). -/
theorem c6_field_skip_amended :
    (∀ (d : DatosGps) (datos : List Char) (v : Q),
      18 ≤ (pySplit ',' datos).length →
      (pySplit ',' datos).getD 15 [] = [] →
      (pySplit ',' datos).getD 16 [] ≠ [] →
      pyFloat ((pySplit ',' datos).getD 16 []) = some v →
      (procesar_gpgsa d datos).1.hdop = some v ∧
        (procesar_gpgsa d datos).1.pdop = d.pdop) ∧
    (∀ (d : DatosGps) (datos : List Char),
      18 ≤ (pySplit ',' datos).length →
      (pySplit ',' datos).getD 15 [] ≠ [] →
      pyFloat ((pySplit ',' datos).getD 15 []) = none →
      procesar_gpgsa d datos = (d, false)) ∧
    (∀ (d : DatosGps) (datos : List Char),
      8 ≤ (pySplit ',' datos).length →
      pyIsdigit (pyReplaceFirst '.' ((pySplit ',' datos).getD 1 [])) = false →
      (procesar_gpvtg d datos).1.curso = d.curso) ∧
    (∀ (d : DatosGps) (datos : List Char), (procesar_gpvtg d datos).2 = true) ∧
    (∀ (d : DatosGps) (datos : List Char), (procesar_gpgsv d datos).2 = true) ∧
    (∀ (d : DatosGps) (datos : List Char) (ts vel : Char),
      datos.get? 1 = some ts → datos.get? 7 = some vel → pyFloat [vel] = none →
      procesar_gprmc d datos = ({ d with timestamp := [ts] }, false)) := by
  refine ⟨?_, ?_, ?_, gpvtg_ok, gpgsv_ok, ?_⟩
  · intro d datos v h18 h15 h16ne h16v
    simp only [procesar_gpgsa, gsaHdop]
    rw [if_pos h18, if_neg (fun hcon => hcon h15), if_pos h16ne, h16v]
    obtain ⟨hp, hh⟩ := gsaVdop_keeps { d with hdop := some v } (pySplit ',' datos)
    simp [hp, hh]
  · intro d datos h18 h15 hbad
    simp only [procesar_gpgsa]
    rw [if_pos h18, if_pos h15, hbad]
  · intro d datos h8 hguard
    simp only [procesar_gpvtg]
    rw [if_pos h8, if_neg (by rw [hguard]; exact Bool.false_ne_true)]
    exact vtgSpeed_keeps d _
  · intro d datos ts vel h1 h7 hbad
    simp only [procesar_gprmc]
    rw [h1, h7]
    dsimp only
    rw [hbad]

/-- C6 (witness): the GSA independent-absence conjunct instantiated at
a payload with an empty PDOP token and HDOP `2.5`. -/
theorem c6_witness :
    (procesar_gpgsa initialDatos
      (("0,1,2,3,4,5,6,7,8,9,10,11,12,13,14,,2.5,1.3").toList)).1.hdop = some (mkQ 5 2) ∧
    (procesar_gpgsa initialDatos
      (("0,1,2,3,4,5,6,7,8,9,10,11,12,13,14,,2.5,1.3").toList)).1.pdop =
      initialDatos.pdop :=
  c6_field_skip_amended.1 initialDatos
    (("0,1,2,3,4,5,6,7,8,9,10,11,12,13,14,,2.5,1.3").toList) (mkQ 5 2)
    (by decide) (by decide) (by decide) (by decide)

/-- C7.  `calcular_checksum` returns the XOR of the bytes strictly
between the leading `$` and the `*` delimiter as two zero-padded
uppercase hex digits, and `validar_checksum` accepts exactly the
sentences with exactly one `*` whose received digits equal the
computed checksum up to case (stated for received parts without
surrounding whitespace, which `strip()` would remove); sentences
without exactly one `*` are rejected.  The spec example
`$GPGGA,,,,,,,,,,,,,,*56` computes `56` and validates. -/
theorem c7_checksum_contract :
    (∀ s pref reci : List Char, pySplit '*' s = [pref, reci] → pyStrip reci = reci →
      (validar_checksum s = true ↔ pyUpper reci = calcular_checksum s)) ∧
    (∀ s : List Char, (pySplit '*' s).length ≠ 2 → validar_checksum s = false) ∧
    calcular_checksum (("$GPGGA,,,,,,,,,,,,,,*56").toList) = ("56").toList ∧
    validar_checksum (("$GPGGA,,,,,,,,,,,,,,*56").toList) = true := by
  refine ⟨?_, ?_, by decide, by decide⟩
  · intro s pref reci hsp hws
    have hmem : '*' ∈ s := mem_of_pySplit_pair hsp
    simp only [validar_checksum, hsp, hws]
    rw [if_neg (by simp [hmem])]
    rw [beq_iff_eq]
    exact eq_comm
  · intro s hlen
    by_cases hmem : '*' ∈ s
    · simp only [validar_checksum]
      rw [if_neg (by simp [hmem])]
      rcases hsp : pySplit '*' s with _ | ⟨a, _ | ⟨b, _ | _⟩⟩
      · rfl
      · rfl
      · rw [hsp] at hlen
        simp at hlen
      · rfl
    · simp [validar_checksum, hmem]

/-- C7 (witness): the validation contract instantiated at `$P*50`
(the XOR of the single payload byte `P` is `50`). -/
theorem c7_witness :
    validar_checksum (("$P*50").toList) = true ↔
      pyUpper (("50").toList) = calcular_checksum (("$P*50").toList) :=
  c7_checksum_contract.1 (("$P*50").toList) (("$P").toList) (("50").toList)
    (by decide) (by decide)

/-- C8 (code bug).  A GSV sentence whose message-sequence-number field
(second payload field) is `1` does NOT clear `satelites_info` and does
NOT assign `satelites_visibles`: the decoder reads the message number
from `campos[2]` — which, after the dispatcher already removed the
`$GPGSV` tag, is the satellites-in-view field (`11` here) — so the
clear condition `msg_num == 1` fails and the new entries are appended
to the previous group's list. -/
theorem c8_gsv_seq_bug :
    (pySplit ',' (("3,1,11,03,03,111,00").toList)).getD 1 [] = ("1").toList ∧
    (procesar_trama c8Start gsvSeq1Line).state.datos.satelites_info =
      [⟨("99").toList, 1, 2, 3⟩, ⟨("03").toList, 111, 0, 0⟩] ∧
    (procesar_trama c8Start gsvSeq1Line).state.datos.satelites_visibles = 5 ∧
    (procesar_trama c8Start gsvSeq1Line).ok = true := by decide

/-- C9.  For every line whose stripped form begins with `$`: without a
`*` the line is not rejected for checksum and proceeds to tag routing
(`despachar`); with a `*` and failing validation the line is
discarded — `procesar_trama` returns `False` with the state unchanged,
no counter increment and no notification. -/
theorem c9_dispatcher_checksum (fs : FusionState) (trama : List Char)
    (h : (pyStrip trama).head? = some '$') :
    ('*' ∉ pyStrip trama → procesar_trama fs trama = despachar fs (pyStrip trama)) ∧
    ('*' ∈ pyStrip trama → validar_checksum (pyStrip trama) = false →
      procesar_trama fs trama = ⟨fs, false, none⟩) := by
  have hne : pyStrip trama ≠ [] := by
    intro h0
    rw [h0] at h
    exact Option.noConfusion h
  constructor
  · intro hns
    simp only [procesar_trama]
    rw [if_neg hne, if_neg (by simp [h]), if_neg (by simp [hns])]
  · intro hm hv
    simp only [procesar_trama]
    rw [if_neg hne, if_neg (by simp [h]), if_pos ⟨hm, hv⟩]

/-- C9 (witness): the rejection half instantiated at `$P*51`, whose
computed checksum `50` differs from the received `51`. -/
theorem c9_witness :
    procesar_trama initialState (("$P*51").toList) = ⟨initialState, false, none⟩ :=
  (c9_dispatcher_checksum initialState (("$P*51").toList) (by decide)).2
    (by decide) (by decide)

/-- C10 (counterexample).  A GPGGA line (fed without checksum, so it is
routed) whose decoder body completes without an exception — it merges
fields all the way to the final `altitud` assignment — still does not
count as successfully decoded: no increment, no notification, because
the decoder returns `None`. -/
theorem c10_counterexample :
    (procesar_trama initialState ggaLineNoCk).state.datos.altitud = some 0 ∧
    (procesar_trama initialState ggaLineNoCk).ok = false ∧
    (procesar_trama initialState ggaLineNoCk).state.tramas_procesadas = 0 ∧
    (procesar_trama initialState ggaLineNoCk).notificado = none := by decide

/-- C10 (amended).  Only the VTG, GSA and GSV decoders report success
whenever their body completes without an exception, even when no data
field is modified: VTG and GSV never raise (every conversion is
guarded) and always return `True`; GSA returns `True` whenever each
non-empty DOP token parses — in particular with fewer than 18 payload
fields it returns `True` having modified nothing.  A `$GPVTG` line
with fewer than 8 payload fields, or one whose course and speed tokens
both fail the numeric guard, returns success, increments
`sentencesProcessed` and fires the notification with the unchanged
data snapshot.  The GGA, GLL and RMC decoders return `None` on every
path and never report success. -/
theorem c10_success_amended :
    (∀ fs : FusionState, procesar_trama fs (("$GPVTG,a,b").toList) =
      ⟨⟨fs.datos, fs.tramas_procesadas + 1⟩, true, some fs.datos⟩) ∧
    (∀ fs : FusionState, procesar_trama fs (("$GPVTG,x,T,034.4,M,005.5,N,y,K").toList) =
      ⟨⟨fs.datos, fs.tramas_procesadas + 1⟩, true, some fs.datos⟩) ∧
    (∀ (d : DatosGps) (datos : List Char), (procesar_gpgga d datos).2 = false) ∧
    (∀ (d : DatosGps) (datos : List Char), (procesar_gpgll d datos).2 = false) ∧
    (∀ (d : DatosGps) (datos : List Char), (procesar_gprmc d datos).2 = false) ∧
    (∀ (d : DatosGps) (datos : List Char), (procesar_gpvtg d datos).2 = true) ∧
    (∀ (d : DatosGps) (datos : List Char), (procesar_gpgsv d datos).2 = true) ∧
    (∀ (d : DatosGps) (datos : List Char), (pySplit ',' datos).length < 18 →
      procesar_gpgsa d datos = (d, true)) ∧
    (∀ (d : DatosGps) (datos : List Char),
      ((pySplit ',' datos).getD 15 [] ≠ [] →
        (pyFloat ((pySplit ',' datos).getD 15 [])).isSome = true) →
      ((pySplit ',' datos).getD 16 [] ≠ [] →
        (pyFloat ((pySplit ',' datos).getD 16 [])).isSome = true) →
      ((pySplit ',' datos).getD 17 [] ≠ [] →
        (pyFloat (if '*' ∈ (pySplit ',' datos).getD 17 [] then
            (pySplit '*' ((pySplit ',' datos).getD 17 [])).getD 0 []
          else (pySplit ',' datos).getD 17 [])).isSome = true) →
      (procesar_gpgsa d datos).2 = true) := by
  refine ⟨fun fs => rfl, fun fs => rfl, ?_, ?_, ?_, gpvtg_ok, gpgsv_ok, ?_, ?_⟩
  · intro d datos
    simp only [procesar_gpgga]
    repeat' split
    all_goals rfl
  · intro d datos
    simp only [procesar_gpgll]
    repeat' split
    all_goals rfl
  · intro d datos
    simp only [procesar_gprmc]
    repeat' split
    all_goals rfl
  · intro d datos hlen
    simp only [procesar_gpgsa]
    rw [if_neg (by omega)]
  · intro d datos h15 h16 h17
    simp only [procesar_gpgsa, gsaHdop, gsaVdop]
    repeat' split
    all_goals simp_all

/-- C10 (witness): the GSA success conjunct instantiated at an
18-field payload with an empty PDOP and parsing HDOP/VDOP tokens. -/
theorem c10_witness :
    (procesar_gpgsa initialDatos
      (("0,1,2,3,4,5,6,7,8,9,10,11,12,13,14,,2.5,1.3").toList)).2 = true :=
  c10_success_amended.2.2.2.2.2.2.2.2 initialDatos
    (("0,1,2,3,4,5,6,7,8,9,10,11,12,13,14,,2.5,1.3").toList)
    (by decide) (by decide) (by decide)

end GPSFusion
